import Mathlib

/-!
Verification development for the trickle bulk-email delivery pipeline.

Shallow embedding of:
- the Delivery Worker (`src/backend/functions/worker/index.ts`): per-trigger
  handler, retry loop `sendEmailWithRetry`, `isRetryableError`;
- the Scheduler fan-out (`src/backend/functions/api/email.ts` `send`):
  recipient parsing/dedup, validation order, trigger creation, rollback;
- the event classifier (`src/backend/functions/api/event-classifier.ts`
  `classifyBounce`);
- the metrics aggregator (`computeJobMetrics`);
- the paginated event-log page-size normalization
  (`src/backend/functions/api/email-events.ts` `logs`).

Effectful TypeScript (DynamoDB/S3/SES/Scheduler calls) is embedded as pure
state passing: the outcome of each external call is supplied by an explicit
oracle argument, and the store mutations become explicit record updates.
-/

namespace Trickle

/-- Job status values stored in the Jobs table. `pending` is the only
non-terminal status; `failed` is set by the Scheduler rollback path only. -/
inductive JobStatus
  | pending
  | completed
  | completedWithErrors
  | failed
  deriving DecidableEq

/-- The `lastError` record the worker writes on a per-recipient failure:
`{ email, errorName, errorMessage: errorMessage.substring(0, 500) }`. -/
structure LastError where
  email : String
  errorName : String
  errorMessage : String
  deriving DecidableEq

/-- The mutable Job record fields touched by the worker and scheduler.
Timestamps are abstracted as naturals. -/
structure Job where
  sent : Nat
  failed : Nat
  totalRecipients : Nat
  status : JobStatus
  completedAt : Option Nat
  lastError : Option LastError
  lastErrorAt : Option Nat
  deriving DecidableEq

/-- An error thrown by the SES send call: its `name`, `message` and optional
`$metadata.httpStatusCode`. -/
structure SendError where
  name : String
  message : String
  httpStatusCode : Option Nat
  deriving DecidableEq

/-- Outcome of one `sendEmail` attempt, supplied by the environment oracle. -/
inductive AttemptResult
  | ok
  | err (e : SendError)
  deriving DecidableEq

/-- `MAX_RETRIES = 3` from the worker. -/
def MAX_RETRIES : Nat := 3

/-- `INITIAL_BACKOFF_MS = 1000` from the worker. -/
def INITIAL_BACKOFF_MS : Nat := 1000

/-- Substring search on character lists: does `needle` occur in `l`? -/
def charsContains (needle : List Char) : List Char → Bool
  | [] => needle.isEmpty
  | c :: cs => needle.isPrefixOf (c :: cs) || charsContains needle cs

/-- JavaScript `haystack.includes(needle)` on strings (substring test; the
empty needle is always contained). -/
def jsIncludes (haystack needle : String) : Bool :=
  charsContains needle.toList haystack.toList

/-- JavaScript `s.substring(0, n)`: the first `n` characters of `s`. -/
def jsTruncate (s : String) (n : Nat) : String :=
  String.mk (s.toList.take n)

/-- The fixed allow-list of retryable error-name fragments from
`isRetryableError`. -/
def retryableErrors : List String :=
  ["Throttling", "TooManyRequestsException", "ServiceUnavailable",
   "InternalServiceError", "RequestTimeout"]

/-- `isRetryableError` from the worker: the error name contains one of the
allow-listed fragments, or the HTTP status code is 429/503/504. -/
def isRetryableError (e : SendError) : Bool :=
  retryableErrors.any (fun s => jsIncludes e.name s) ||
    e.httpStatusCode == some 429 ||
    e.httpStatusCode == some 503 ||
    e.httpStatusCode == some 504

/-- Result of `sendEmailWithRetry`: success or a thrown error, together with
the number of attempts actually made and the backoff sleeps (in ms)
performed between attempts, in order. -/
inductive RetryResult
  | success (attemptsMade : Nat) (sleeps : List Nat)
  | failure (e : SendError) (attemptsMade : Nat) (sleeps : List Nat)
  deriving DecidableEq

/-- Number of attempts a retry run made. -/
def RetryResult.attemptsMade : RetryResult → Nat
  | .success a _ => a
  | .failure _ a _ => a

/-- The backoff sleeps a retry run performed. -/
def RetryResult.sleeps : RetryResult → List Nat
  | .success _ s => s
  | .failure _ _ s => s

/-- Whether a retry run ended in success. -/
def RetryResult.isSuccess : RetryResult → Bool
  | .success _ _ => true
  | .failure _ _ _ => false

/-- The body of the `for (let attempt = 0; attempt < MAX_RETRIES; attempt++)`
loop of `sendEmailWithRetry`, with `fuel = MAX_RETRIES - attempt` to make the
recursion structural. `outcomes k` is what the `sendEmail` call would do on
attempt index `k`. The `fuel = 0` case is the trailing `throw lastError`
after the loop (dead code for the actual entry point). -/
def retryFrom (outcomes : Nat → AttemptResult) (lastErr : SendError)
    (attempt : Nat) : Nat → List Nat → RetryResult
  | 0, sleeps => .failure lastErr attempt sleeps
  | fuel + 1, sleeps =>
    match outcomes attempt with
    | .ok => .success (attempt + 1) sleeps
    | .err e =>
      if !isRetryableError e then
        .failure e (attempt + 1) sleeps
      else if attempt == MAX_RETRIES - 1 then
        .failure e (attempt + 1) sleeps
      else
        retryFrom outcomes e (attempt + 1) fuel
          (sleeps ++ [INITIAL_BACKOFF_MS * 2 ^ attempt])

/-- `sendEmailWithRetry` from the worker, as a function of the oracle of
per-attempt outcomes. -/
def sendEmailWithRetry (outcomes : Nat → AttemptResult) : RetryResult :=
  retryFrom outcomes ⟨"", "", none⟩ 0 MAX_RETRIES []

/-- The error name the handler records: `(error as any).name || "Unknown"`
(an empty name is falsy in JavaScript). -/
def recordedErrorName (name : String) : String :=
  if name = "" then "Unknown" else name

/-- What the worker handler returns to its invoker. -/
inductive HandlerOutcome
  | ok200
  | rethrown (e : SendError)
  deriving DecidableEq

/-- The worker `handler`, given the pre-state of the job record, the trigger's
recipient, the result of the retry loop, and the current time. On success it
increments `sent`; on failure it increments `failed` and records
`lastError`/`lastErrorAt` (message truncated to 500). In both cases it then
re-reads the updated counters and, if `sent + failed >= totalRecipients`,
writes the final status and `completedAt`. Schedule deletion is a no-op on
the job record. -/
def handlerStep (job : Job) (email : String) (r : RetryResult) (now : Nat) :
    Job × HandlerOutcome :=
  match r with
  | .success _ _ =>
    let j1 : Job := { job with sent := job.sent + 1 }
    let j2 : Job :=
      if j1.sent + j1.failed ≥ j1.totalRecipients then
        { j1 with
            status := if j1.failed > 0 then .completedWithErrors else .completed,
            completedAt := some now }
      else j1
    (j2, .ok200)
  | .failure e _ _ =>
    let j1 : Job := { job with
        failed := job.failed + 1,
        lastError := some ⟨email, recordedErrorName e.name, jsTruncate e.message 500⟩,
        lastErrorAt := some now }
    let j2 : Job :=
      if j1.sent + j1.failed ≥ j1.totalRecipients then
        { j1 with status := .completedWithErrors, completedAt := some now }
      else j1
    (j2, .rethrown e)

/-! ## Job lifecycle model (scheduler creation + per-trigger worker steps) -/

/-- Whether a status is terminal (everything except `pending`; §4.2 of the
spec lists three terminal states, `failed` being the Scheduler-side one). -/
def isTerminal : JobStatus → Bool
  | .pending => false
  | _ => true

/-- The Job record as created by the Scheduler before fan-out:
`sent = failed = 0`, status `pending`, `totalRecipients` fixed. -/
def mkJob (n : Nat) : Job :=
  { sent := 0, failed := 0, totalRecipients := n, status := .pending,
    completedAt := none, lastError := none, lastErrorAt := none }

/-- One event in a job's lifecycle: either the Scheduler's fan-out fails and
the rollback marks the job `failed`, or one delivery trigger fires and the
worker handler processes it with the given retry-loop result. -/
inductive JobEvent
  | fanoutFailed
  | trigger (email : String) (r : RetryResult) (now : Nat)

/-- Whether an event is a worker trigger firing. -/
def JobEvent.isTrigger : JobEvent → Bool
  | .trigger _ _ _ => true
  | .fanoutFailed => false

/-- Effect of one lifecycle event on the job record. The fan-out rollback is
`SET #status = :failed` (counters and `completedAt` untouched); a trigger
runs the worker handler. -/
def jobStep (job : Job) : JobEvent → Job
  | .fanoutFailed => { job with status := .failed }
  | .trigger email r now => (handlerStep job email r now).1

/-- Run a job lifecycle from a starting record. -/
def runJob (job : Job) (evs : List JobEvent) : Job :=
  evs.foldl jobStep job

/-- Traces the repository's control flow can produce for one job of
`n` recipients: either fan-out fails before any trigger fires (rollback
deletes the created triggers), or fan-out succeeds and each of the `n`
triggers fires exactly once. -/
def ValidTrace (n : Nat) (evs : List JobEvent) : Prop :=
  evs = [.fanoutFailed] ∨ (evs.length = n ∧ ∀ e ∈ evs, e.isTrigger = true)

/-! ## Scheduler fan-out (`send` in `src/backend/functions/api/email.ts`) -/

/-- Splitting a character list at every `;`, JavaScript `split(";")`
semantics: the empty list yields one empty field, separators delimit
(possibly empty) fields. -/
def charsSplitOnSemicolon : List Char → List (List Char)
  | [] => [[]]
  | c :: cs =>
    match charsSplitOnSemicolon cs with
    | [] => [[]]
    | w :: ws => if c = ';' then [] :: w :: ws else (c :: w) :: ws

/-- Whitespace trim on a character list (JavaScript `trim()`). -/
def charsTrim (l : List Char) : List Char :=
  ((l.dropWhile Char.isWhitespace).reverse.dropWhile Char.isWhitespace).reverse

/-- Recipient parsing from `send`:
`recipients.split(";").map(trim).filter(length > 0)`. -/
def parseRecipients (recipients : String) : List String :=
  ((charsSplitOnSemicolon recipients.toList).map
      (fun w => String.mk (charsTrim w))).filter (fun e => e.length > 0)

/-- `Array.from(new Set(list))`: removes duplicates by exact string equality,
keeping the first occurrence of each element, preserving order. -/
def dedup (l : List String) : List String :=
  l.foldl (fun acc e => if e ∈ acc then acc else acc ++ [e]) []

/-- `MAX_RECIPIENTS = 1000`. -/
def MAX_RECIPIENTS : Nat := 1000

/-- `MAX_SUBJECT_LENGTH = 998`. -/
def MAX_SUBJECT_LENGTH : Nat := 998

/-- `MAX_CONTENT_SIZE = 300000`. -/
def MAX_CONTENT_SIZE : Nat := 300000

/-- The EventBridge schedule name `trickle-jobId-i` for the recipient at
index `i` — the trigger identifier embedding the job id and the index. -/
def scheduleName (jobId : String) (i : Nat) : String :=
  "trickle-" ++ jobId ++ "-" ++ toString i

/-- One delivery trigger as created by the fan-out loop: name, recipient, and
absolute fire time in ms (`now.getTime() + i * rateLimit * 1000`, where
`rateLimit` is the configured interval in seconds). -/
structure Trigger where
  name : String
  email : String
  fireTimeMs : Nat
  deriving DecidableEq

/-- The list of triggers the fan-out loop creates for the unique recipients:
one per recipient, indexed in order. (`uniq[i]` is total in the source loop;
`getD` supplies a default that is never used for `i < uniq.length`.) -/
def mkTriggers (jobId : String) (nowMs rateLimit : Nat) (uniq : List String) :
    List Trigger :=
  (List.range uniq.length).map (fun i =>
    { name := scheduleName jobId i,
      email := uniq.getD i "",
      fireTimeMs := nowMs + i * rateLimit * 1000 })

/-- `validateSubject`: empty/whitespace-only rejected, length over 998
rejected. Returns the error string, or `none` for a valid subject. -/
def validateSubject (subject : String) : Option String :=
  if subject = "" ∨ subject.trim.length = 0 then
    some "Subject is required"
  else if subject.length > MAX_SUBJECT_LENGTH then
    some "Subject too long"
  else
    none

/-- `validateContent`: empty/whitespace-only rejected, UTF-8 byte size over
300000 rejected. Returns the error string, or `none` for valid content. -/
def validateContent (content : String) : Option String :=
  if content = "" ∨ content.trim.length = 0 then
    some "Content is required"
  else if content.utf8ByteSize > MAX_CONTENT_SIZE then
    some "Content too large"
  else
    none

/-- The body fields of a submission request. -/
structure SendRequest where
  sender : String
  recipients : String
  subject : String
  content : String
  deriving DecidableEq

/-- Observable side effects of the submission path, in order of occurrence. -/
inductive SendEffect
  | putJob (totalRecipients : Nat)
  | uploadAttachment (key : String)
  | createSchedule (name : String)
  deriving DecidableEq

/-- Response of the validation phase of `send`: a 400 with the given error
string, or acceptance (the request proceeds to job creation and fan-out). -/
inductive ValidationOutcome
  | badRequest (error : String)
  | accepted (uniqueRecipients : List String)
  deriving DecidableEq

/-- The validation pipeline of `send`, in source order: required-fields
falsy check, sender format (`validateEmail`, abstracted as the `emailValid`
oracle since its regex is irrelevant to the claims), sender SES-identity
check (`senderVerified` oracle), subject, content, recipient parse + dedup,
empty check, count ceiling, per-recipient format check. Only an `accepted`
result reaches job creation. -/
def sendValidate (emailValid : String → Bool) (senderVerified : Bool)
    (req : SendRequest) : ValidationOutcome :=
  if req.sender = "" ∨ req.recipients = "" ∨ req.subject = "" ∨ req.content = "" then
    .badRequest "Missing required fields"
  else if ¬ emailValid req.sender then
    .badRequest "Invalid sender email format"
  else if ¬ senderVerified then
    .badRequest "Sender email not verified in SES"
  else
    match validateSubject req.subject with
    | some e => .badRequest e
    | none =>
      match validateContent req.content with
      | some e => .badRequest e
      | none =>
        let uniqueRecipients := dedup (parseRecipients req.recipients)
        if uniqueRecipients.length = 0 then
          .badRequest "No valid recipients"
        else if uniqueRecipients.length > MAX_RECIPIENTS then
          .badRequest "Too many recipients"
        else if (uniqueRecipients.filter (fun e => ¬ emailValid e)) ≠ [] then
          .badRequest "Invalid recipient email format"
        else
          .accepted uniqueRecipients

/-- Effects a `send` call performs: none when validation rejects; otherwise
the Job record write (with `totalRecipients` = unique count) followed by the
attachment uploads and schedule creations of the fan-out phase. Attachment
keys are `jobId/filename`. -/
def sendEffects (emailValid : String → Bool) (senderVerified : Bool)
    (req : SendRequest) (jobId : String) (files : List String) :
    List SendEffect :=
  match sendValidate emailValid senderVerified req with
  | .badRequest _ => []
  | .accepted uniq =>
    .putJob uniq.length ::
      (files.map (fun f => .uploadAttachment (jobId ++ "/" ++ f)) ++
        (List.range uniq.length).map (fun i => .createSchedule (scheduleName jobId i)))

/-! ## Fan-out execution and rollback (`try`/`catch` after Job creation) -/

/-- Index of the first `i` in `[start, start + fuel)` with `fails i = true`,
scanning in order — the point where a sequential effect loop breaks. -/
def firstIdx (fails : Nat → Bool) (start : Nat) : Nat → Option Nat
  | 0 => none
  | fuel + 1 => if fails start then some start else firstIdx fails (start + 1) fuel

/-- Oracle for the fallible external calls of the fan-out phase and its
cleanup, each indexed by loop position where applicable. `true` means the
call throws. -/
structure FanoutOracle where
  uploadFails : Nat → Bool
  updateAttachmentsFails : Bool
  createScheduleFails : Nat → Bool
  deleteScheduleFails : Nat → Bool
  deleteAttachmentFails : Nat → Bool
  markFailedFails : Bool

/-- Final observable state of one fan-out run (the `try`/`catch` block after
the Job record is created): job status, the uploads and schedules created,
the cleanup delete attempts issued, what survives them, and whether the call
returned 200 (`ok = true`) or re-threw the error (`ok = false`). -/
structure FanoutResult where
  jobStatus : JobStatus
  attachmentKeys : List String
  createdSchedules : List String
  scheduleDeleteAttempts : List String
  attachmentDeleteAttempts : List String
  remainingSchedules : List String
  remainingAttachments : List String
  ok : Bool
  deriving DecidableEq

/-- The `catch` block of the fan-out: best-effort delete every created
schedule, then every uploaded attachment (continuing past individual
failures — a failed delete only leaves the resource behind), then try to
mark the Job `failed` (itself best-effort), then re-throw. -/
def fanoutCleanup (o : FanoutOracle) (keys scheds : List String) :
    FanoutResult :=
  { jobStatus := if o.markFailedFails then .pending else .failed,
    attachmentKeys := keys,
    createdSchedules := scheds,
    scheduleDeleteAttempts := scheds,
    attachmentDeleteAttempts := keys,
    remainingSchedules :=
      ((List.range scheds.length).filter o.deleteScheduleFails).map
        (fun i => scheds.getD i ""),
    remainingAttachments :=
      ((List.range keys.length).filter o.deleteAttachmentFails).map
        (fun i => keys.getD i ""),
    ok := false }

/-- The fan-out `try` block, run after the Job record was written in
`pending` status: upload each attachment in order (breaking at the first
failure), update the Job's attachment list when any were uploaded, then
create one schedule per unique recipient in order (breaking at the first
failure). Any failure enters `fanoutCleanup`. -/
def runFanout (o : FanoutOracle) (jobId : String) (files : List String)
    (nRecipients : Nat) : FanoutResult :=
  let upFail := firstIdx o.uploadFails 0 files.length
  let upCount := upFail.getD files.length
  let keys := (files.take upCount).map (fun f => jobId ++ "/" ++ f)
  if upFail.isSome then
    fanoutCleanup o keys []
  else if keys.length > 0 ∧ o.updateAttachmentsFails then
    fanoutCleanup o keys []
  else
    let schedFail := firstIdx o.createScheduleFails 0 nRecipients
    let schedCount := schedFail.getD nRecipients
    let scheds := (List.range schedCount).map (scheduleName jobId)
    if schedFail.isSome then
      fanoutCleanup o keys scheds
    else
      { jobStatus := .pending,
        attachmentKeys := keys,
        createdSchedules := scheds,
        scheduleDeleteAttempts := [],
        attachmentDeleteAttempts := [],
        remainingSchedules := scheds,
        remainingAttachments := keys,
        ok := true }

/-! ## Event classifier (`classifyBounce`) -/

/-- The classification record produced per event; `recommendationText` embeds
the source's recommendation field. -/
structure EventClassification where
  severity : String
  category : String
  icon : String
  interpretation : String
  recommendationText : String
  requiresAction : Bool
  deriving DecidableEq

/-- Interpretation text of the Permanent-bounce branch, per subtype switch
(the `General` case and the switch default coincide; `diagnosticCode` only
feeds the dead local `details`, never the result). -/
def permanentInterpretation (bounceSubType : Option String) : String :=
  match bounceSubType with
  | some "NoEmail" => "No email address associated with this recipient"
  | some "Suppressed" => "Address is on your SES suppression list"
  | some "OnAccountSuppressionList" => "Address is on your account suppression list"
  | _ => "Permanent bounce - invalid or non-existent address"

/-- Interpretation text of the Transient-bounce branch, per subtype switch. -/
def transientInterpretation (bounceSubType : Option String) : String :=
  match bounceSubType with
  | some "MailboxFull" => "Recipient\x27s mailbox is full"
  | some "MessageTooLarge" => "Email size exceeds recipient server limits"
  | some "ContentRejected" => "Email content was rejected"
  | some "AttachmentRejected" => "Attachment type not accepted"
  | some "ServiceUnavailable" => "Recipient server temporarily unavailable"
  | some "MailFromDomainNotVerified" => "Sending domain not verified with recipient"
  | _ => "Temporary delivery issue"

/-- JavaScript `bounceType || "unknown"`: an absent or empty string is
replaced by `"unknown"`. -/
def bounceTypeOrUnknown (bounceType : Option String) : String :=
  match bounceType with
  | some t => if t = "" then "unknown" else t
  | none => "unknown"

/-- `classifyBounce` from `event-classifier.ts`: Permanent bounces are
critical/hard/action-required, Transient bounces are warning/soft/no-action,
anything else is info/unknown. The subtype only selects the interpretation
text. -/
def classifyBounce (bounceType bounceSubType diagnosticCode : Option String) :
    EventClassification :=
  if bounceType = some "Permanent" then
    { severity := "critical",
      category := "hard",
      icon := "🔴",
      interpretation := permanentInterpretation bounceSubType,
      recommendationText :=
        "🛑 Remove this address from your mailing list immediately. " ++
        "Sending to invalid addresses damages your sender reputation. " ++
        "Best practice: Maintain hard bounce rate below 2%.",
      requiresAction := true }
  else if bounceType = some "Transient" then
    { severity := "warning",
      category := "soft",
      icon := "⚠️",
      interpretation := transientInterpretation bounceSubType,
      recommendationText :=
        "This is usually temporary. " ++
        "Monitor if this address continues to soft bounce - after 10+ " ++
        "consecutive failures, consider removing it. " ++
        "For MailboxFull or ServerDown issues, retry is often successful.",
      requiresAction := false }
  else
    { severity := "info",
      category := "unknown",
      icon := "ℹ️",
      interpretation := "Bounce event (type: " ++ bounceTypeOrUnknown bounceType ++ ")",
      recommendationText := "Review the bounce details for more information.",
      requiresAction := false }

/-! ## Metrics aggregator (`computeJobMetrics`) -/

/-- One stored delivery event, restricted to the fields the tally reads. -/
structure EventRecord where
  eventType : String
  bounceType : Option String
  deriving DecidableEq

/-- Warning kinds of `computeJobMetrics`; the source emits human-readable
strings whose numeric text comes from floating-point `toFixed` formatting,
abstracted here as tags. -/
inductive MetricsWarning
  | hardBounceCritical
  | hardBounceMild
  | complaintCritical
  | complaintMild
  deriving DecidableEq

/-- Whether a warning concerns the hard-bounce-rate metric. -/
def MetricsWarning.isHardBounce : MetricsWarning → Bool
  | .hardBounceCritical => true
  | .hardBounceMild => true
  | _ => false

/-- Whether a warning concerns the complaint-rate metric. -/
def MetricsWarning.isComplaint : MetricsWarning → Bool
  | .complaintCritical => true
  | .complaintMild => true
  | _ => false

/-- The metrics object `computeJobMetrics` returns; rates are exact
rationals standing for the JavaScript number divisions. -/
structure JobMetrics where
  hardBounceCount : Nat
  softBounceCount : Nat
  complaintCount : Nat
  rejectCount : Nat
  totalEventCount : Nat
  hardBounceRate : ℚ
  complaintRate : ℚ
  warnings : List MetricsWarning
  deriving DecidableEq

/-- `computeJobMetrics` from the event-metrics utility: tally the events,
divide by `totalRecipients` guarded against zero, and append at most one
warning per metric via the mutually exclusive `if`/`else if` thresholds. -/
def computeJobMetrics (events : List EventRecord) (totalRecipients : Nat) :
    JobMetrics :=
  let hardBounceCount := events.countP
    (fun e => e.eventType = "Bounce" ∧ e.bounceType = some "Permanent")
  let softBounceCount := events.countP
    (fun e => e.eventType = "Bounce" ∧ e.bounceType = some "Transient")
  let complaintCount := events.countP (fun e => e.eventType = "Complaint")
  let rejectCount := events.countP (fun e => e.eventType = "Reject")
  let hardBounceRate : ℚ :=
    if totalRecipients > 0 then (hardBounceCount : ℚ) / (totalRecipients : ℚ) else 0
  let complaintRate : ℚ :=
    if totalRecipients > 0 then (complaintCount : ℚ) / (totalRecipients : ℚ) else 0
  let hardWarnings : List MetricsWarning :=
    if hardBounceRate > 0.05 then [.hardBounceCritical]
    else if hardBounceRate > 0.02 then [.hardBounceMild]
    else []
  let complaintWarnings : List MetricsWarning :=
    if complaintRate > 0.003 then [.complaintCritical]
    else if complaintRate > 0.001 then [.complaintMild]
    else []
  { hardBounceCount := hardBounceCount,
    softBounceCount := softBounceCount,
    complaintCount := complaintCount,
    rejectCount := rejectCount,
    totalEventCount := events.length,
    hardBounceRate := hardBounceRate,
    complaintRate := complaintRate,
    warnings := hardWarnings ++ complaintWarnings }

/-! ## Event-log pagination (`logs` in `email-events.ts`) -/

/-- Page-size normalization of the event-log read: `parseInt` of the query
parameter with default `"100"`, then `if (limit < 1 || limit > 1000) limit
= 100`. -/
def normalizeLimit (limitParam : Option Int) : Int :=
  let limit := limitParam.getD 100
  if limit < 1 ∨ limit > 1000 then 100 else limit

/-! ## Concrete instances used by witnesses -/

/-- A throttling error: retryable via the allow-list (name contains
`Throttling`). -/
def throttlingError : SendError :=
  ⟨"ThrottlingException", "Rate exceeded", none⟩

/-- A non-retryable SES error (invalid recipient, HTTP 400). -/
def rejectedError : SendError :=
  ⟨"MessageRejected", "Email address is not verified", some 400⟩

/-- Attempt oracle: retryable errors on attempts 1 and 2, success on 3. -/
def outcomesRRS : Nat → AttemptResult :=
  fun k => if k < 2 then .err throttlingError else .ok

/-- Attempt oracle: a retryable error on every attempt. -/
def outcomesAllRetry : Nat → AttemptResult :=
  fun _ => .err throttlingError

/-- Attempt oracle: a non-retryable error on every attempt. -/
def outcomesAllReject : Nat → AttemptResult :=
  fun _ => .err rejectedError

/-- Fan-out oracle for the rollback scenario: every call succeeds except the
creation of the schedule at index 3 (the 4th trigger). -/
def failOn4thSchedule : FanoutOracle :=
  ⟨fun _ => false, false, fun i => i == 3, fun _ => false, fun _ => false, false⟩

/-! ## Theorems -/

/-- C10: in the paginated event-log read, every integer limit parameter below
1 or above 1000 makes the query run with the default page size 100 — the
value is reset to the default, not clamped to the nearest bound. -/
theorem c10_limit_reset_to_default (n : Int) (h : n < 1 ∨ n > 1000) :
    normalizeLimit (some n) = 100 := by
  simp only [normalizeLimit, Option.getD]
  exact if_pos h

/-- Witness for C10 at `limit = 0` and `limit = 5000`: both query with page
size 100. -/
theorem c10_witness :
    normalizeLimit (some 0) = 100 ∧ normalizeLimit (some 5000) = 100 :=
  ⟨c10_limit_reset_to_default 0 (Or.inl (by norm_num)),
   c10_limit_reset_to_default 5000 (Or.inr (by norm_num))⟩

/-- C7: for every bounce event, type Permanent yields severity critical,
category hard, requiresAction true for every subtype; type Transient yields
severity warning, category soft, requiresAction false for every subtype; a
bounce with neither type yields severity info and category unknown. -/
theorem c7_bounce_classification (sub diag bt : Option String)
    (hp : bt ≠ some "Permanent") (ht : bt ≠ some "Transient") :
    ((classifyBounce (some "Permanent") sub diag).severity = "critical" ∧
     (classifyBounce (some "Permanent") sub diag).category = "hard" ∧
     (classifyBounce (some "Permanent") sub diag).requiresAction = true) ∧
    ((classifyBounce (some "Transient") sub diag).severity = "warning" ∧
     (classifyBounce (some "Transient") sub diag).category = "soft" ∧
     (classifyBounce (some "Transient") sub diag).requiresAction = false) ∧
    ((classifyBounce bt sub diag).severity = "info" ∧
     (classifyBounce bt sub diag).category = "unknown") := by
  refine ⟨?_, ?_, ?_⟩ <;> simp [classifyBounce, hp, ht]

/-- Witness for C7 at the spec's concrete cases: Permanent/Suppressed is
critical-hard-action, Transient/MailboxFull is warning-soft-no-action, and a
missing bounce type is info/unknown. -/
theorem c7_witness :
    (classifyBounce (some "Permanent") (some "Suppressed") none).severity = "critical" ∧
    (classifyBounce (some "Transient") (some "MailboxFull") none).severity = "warning" ∧
    (classifyBounce none (some "MailboxFull") none).severity = "info" ∧
    (classifyBounce none (some "MailboxFull") none).category = "unknown" := by
  have h := c7_bounce_classification (some "Suppressed") none none
    (by simp) (by simp)
  have h2 := c7_bounce_classification (some "MailboxFull") none none
    (by simp) (by simp)
  exact ⟨h.1.1, h2.2.1.1, h2.2.2.1, h2.2.2.2⟩

/-- C8: `computeJobMetrics` divides the tallies by `totalRecipients` with a
zero guard returning exact 0 for both rates, and emits at most one warning
per metric; a rate above the critical threshold yields only the critical
warning, the mild one being absent. -/
theorem c8_metrics_rates_and_warnings (events : List EventRecord) (t : Nat) :
    (t ≠ 0 →
      (computeJobMetrics events t).hardBounceRate =
        ((computeJobMetrics events t).hardBounceCount : ℚ) / (t : ℚ) ∧
      (computeJobMetrics events t).complaintRate =
        ((computeJobMetrics events t).complaintCount : ℚ) / (t : ℚ)) ∧
    (t = 0 →
      (computeJobMetrics events t).hardBounceRate = 0 ∧
      (computeJobMetrics events t).complaintRate = 0) ∧
    (computeJobMetrics events t).warnings.countP (·.isHardBounce) ≤ 1 ∧
    (computeJobMetrics events t).warnings.countP (·.isComplaint) ≤ 1 ∧
    ((computeJobMetrics events t).hardBounceRate > 0.05 →
      MetricsWarning.hardBounceCritical ∈ (computeJobMetrics events t).warnings ∧
      MetricsWarning.hardBounceMild ∉ (computeJobMetrics events t).warnings) ∧
    ((computeJobMetrics events t).complaintRate > 0.003 →
      MetricsWarning.complaintCritical ∈ (computeJobMetrics events t).warnings ∧
      MetricsWarning.complaintMild ∉ (computeJobMetrics events t).warnings) := by
  simp only [computeJobMetrics]
  refine ⟨fun ht => ?_, fun ht => ?_, ?_, ?_, ?_, ?_⟩
  · have hpos : 0 < t := Nat.pos_of_ne_zero ht
    simp [hpos]
  · simp [ht]
  · split_ifs <;>
      simp [List.countP_append, List.countP_cons, MetricsWarning.isHardBounce,
        MetricsWarning.isComplaint]
  · split_ifs <;>
      simp [List.countP_append, List.countP_cons, MetricsWarning.isHardBounce,
        MetricsWarning.isComplaint]
  · intro hrate
    split_ifs at hrate ⊢ <;> simp_all
  · intro hrate
    split_ifs at hrate ⊢ <;> simp_all

/-- Witness for C8: the spec's example (6 hard bounces of 100 recipients
gives rate 0.06, only the critical warning) and the zero-recipients case. -/
theorem c8_witness :
    (computeJobMetrics (List.replicate 6 ⟨"Bounce", some "Permanent"⟩) 100).hardBounceRate > 0.05 ∧
    MetricsWarning.hardBounceCritical ∈
      (computeJobMetrics (List.replicate 6 ⟨"Bounce", some "Permanent"⟩) 100).warnings ∧
    MetricsWarning.hardBounceMild ∉
      (computeJobMetrics (List.replicate 6 ⟨"Bounce", some "Permanent"⟩) 100).warnings ∧
    (computeJobMetrics [] 0).hardBounceRate = 0 ∧
    (computeJobMetrics [] 0).complaintRate = 0 := by
  have h6 := (c8_metrics_rates_and_warnings
    (List.replicate 6 ⟨"Bounce", some "Permanent"⟩) 100).2.2.2.2.1
  have h0 := (c8_metrics_rates_and_warnings [] 0).2.1 rfl
  have hrw := (c8_metrics_rates_and_warnings
    (List.replicate 6 ⟨"Bounce", some "Permanent"⟩) 100).1 (by norm_num)
  have hc : (computeJobMetrics
      (List.replicate 6 ⟨"Bounce", some "Permanent"⟩) 100).hardBounceCount = 6 := by
    decide
  have hgt : (computeJobMetrics
      (List.replicate 6 ⟨"Bounce", some "Permanent"⟩) 100).hardBounceRate > 0.05 := by
    rw [hrw.1, hc]
    norm_num
  exact ⟨hgt, (h6 hgt).1, (h6 hgt).2, h0.1, h0.2⟩

/-- Core property of the `new Set` dedup fold: starting from a
duplicate-free accumulator, the result is duplicate-free and holds exactly
the accumulator's elements plus the scanned ones. -/
theorem dedup_foldl_spec (l acc : List String) (h : acc.Nodup) :
    (l.foldl (fun acc e => if e ∈ acc then acc else acc ++ [e]) acc).Nodup ∧
    ∀ x, x ∈ l.foldl (fun acc e => if e ∈ acc then acc else acc ++ [e]) acc ↔
      (x ∈ acc ∨ x ∈ l) := by
  induction l generalizing acc with
  | nil => simpa using h
  | cons e rest ih =>
    simp only [List.foldl_cons]
    by_cases he : e ∈ acc
    · rw [if_pos he]
      obtain ⟨h1, h2⟩ := ih acc h
      refine ⟨h1, fun x => ?_⟩
      rw [h2 x]
      constructor
      · rintro (hx | hx)
        · exact Or.inl hx
        · exact Or.inr (List.mem_cons_of_mem e hx)
      · rintro (hx | hx)
        · exact Or.inl hx
        · rcases List.mem_cons.mp hx with rfl | hx
          · exact Or.inl he
          · exact Or.inr hx
    · rw [if_neg he]
      have hacc : (acc ++ [e]).Nodup := by
        simp [List.nodup_append, h, he]
      obtain ⟨h1, h2⟩ := ih (acc ++ [e]) hacc
      refine ⟨h1, fun x => ?_⟩
      rw [h2 x]
      simp only [List.mem_append, List.mem_singleton, List.mem_cons]
      tauto

/-- The dedup of the recipient list has no duplicates. -/
theorem dedup_nodup (l : List String) : (dedup l).Nodup :=
  (dedup_foldl_spec l [] List.nodup_nil).1

/-- Membership in the dedup is membership in the original list. -/
theorem mem_dedup (l : List String) (x : String) : x ∈ dedup l ↔ x ∈ l := by
  have h := (dedup_foldl_spec l [] List.nodup_nil).2 x
  simpa [dedup] using h

/-- Element lookup in the trigger list. -/
theorem mkTriggers_getElem (jobId : String) (nowMs rate : Nat)
    (uniq : List String) (i : Nat) (h : i < uniq.length) :
    (mkTriggers jobId nowMs rate uniq)[i]? =
      some ⟨scheduleName jobId i, uniq.getD i "", nowMs + i * rate * 1000⟩ := by
  simp [mkTriggers, List.getElem?_map, List.getElem?_range, h]

/-- C5: a job submission produces exactly one trigger per unique recipient
(duplicates collapsed by exact, case-sensitive string match), the trigger at
index `i` fires `i * rateIntervalSeconds` after submission, its identifier
embeds the job id and the index, and the spec's concrete recipient list
dedups to exactly two recipients. -/
theorem c5_unique_triggers (s jobId : String) (nowMs rate : Nat) :
    (mkTriggers jobId nowMs rate (dedup (parseRecipients s))).length =
      (dedup (parseRecipients s)).length ∧
    (dedup (parseRecipients s)).Nodup ∧
    (∀ x, x ∈ dedup (parseRecipients s) ↔ x ∈ parseRecipients s) ∧
    (∀ i, i < (dedup (parseRecipients s)).length →
      (mkTriggers jobId nowMs rate (dedup (parseRecipients s)))[i]? =
        some ⟨scheduleName jobId i, (dedup (parseRecipients s)).getD i "",
          nowMs + i * rate * 1000⟩) ∧
    (∀ i : Nat, scheduleName jobId i = "trickle-" ++ jobId ++ "-" ++ toString i) ∧
    dedup (parseRecipients "a@x.com;a@x.com;b@y.com") = ["a@x.com", "b@y.com"] := by
  refine ⟨by simp [mkTriggers], dedup_nodup _, mem_dedup _,
    fun i hi => mkTriggers_getElem jobId nowMs rate _ i hi,
    fun i => rfl, by decide⟩

/-- Witness for C5: for the spec's recipient list, the second trigger is
named `trickle-J-1`, addressed to `b@y.com`, and fires 60 seconds after
submission at a 60-second interval. -/
theorem c5_witness :
    (mkTriggers "J" 0 60 (dedup (parseRecipients "a@x.com;a@x.com;b@y.com"))).length = 2 ∧
    (mkTriggers "J" 0 60 (dedup (parseRecipients "a@x.com;a@x.com;b@y.com")))[1]? =
      some ⟨"trickle-J-1", "b@y.com", 60000⟩ := by
  have h := c5_unique_triggers "a@x.com;a@x.com;b@y.com" "J" 0 60
  have hlen : (dedup (parseRecipients "a@x.com;a@x.com;b@y.com")).length = 2 := by
    rw [h.2.2.2.2.2]
    rfl
  refine ⟨by rw [h.1, hlen], ?_⟩
  have h1 := h.2.2.2.1 1 (by rw [hlen]; norm_num)
  rw [h1]
  rw [h.2.2.2.2.2]
  rfl

/-- C9: a submission whose recipient list parses and dedups to the empty
list is rejected with a validation error, and no Job record, attachment
upload, or trigger-creating effect occurs. -/
theorem c9_empty_recipients_rejected (emailValid : String → Bool)
    (senderVerified : Bool) (req : SendRequest) (jobId : String)
    (files : List String)
    (h : dedup (parseRecipients req.recipients) = []) :
    (∃ m, sendValidate emailValid senderVerified req = .badRequest m) ∧
    sendEffects emailValid senderVerified req jobId files = [] := by
  have hv : ∃ m, sendValidate emailValid senderVerified req = .badRequest m := by
    unfold sendValidate
    split_ifs <;> try exact ⟨_, rfl⟩
    · cases hs : validateSubject req.subject with
      | some e => exact ⟨e, by simp [hs]⟩
      | none =>
        cases hc : validateContent req.content with
        | some e => exact ⟨e, by simp [hs, hc]⟩
        | none =>
          refine ⟨"No valid recipients", ?_⟩
          simp [hs, hc, h]
  obtain ⟨m, hm⟩ := hv
  exact ⟨⟨m, hm⟩, by simp [sendEffects, hm]⟩

/-- Witness for C9: a request whose recipients string is only semicolons is
rejected and produces no effects. -/
theorem c9_witness :
    (∃ m, sendValidate (fun _ => true) true ⟨"s@x.com", ";;", "Hi", "Body"⟩ = .badRequest m) ∧
    sendEffects (fun _ => true) true ⟨"s@x.com", ";;", "Hi", "Body"⟩ "J" [] = [] :=
  c9_empty_recipients_rejected (fun _ => true) true ⟨"s@x.com", ";;", "Hi", "Body"⟩
    "J" [] (by decide)

/-- C2: when the post-increment re-read of the counters satisfies
`sent + failed == totalRecipients`, the handler finalizes the job: status is
`completed` iff `failed == 0`, `completed_with_errors` iff `failed > 0`, and
`completedAt` is set — on the success path and the failure path alike. -/
theorem c2_finalize_on_exact_count (job : Job) (email : String)
    (r : RetryResult) (now : Nat)
    (h : (handlerStep job email r now).1.sent + (handlerStep job email r now).1.failed =
      (handlerStep job email r now).1.totalRecipients) :
    ((handlerStep job email r now).1.status = .completed ↔
      (handlerStep job email r now).1.failed = 0) ∧
    ((handlerStep job email r now).1.status = .completedWithErrors ↔
      0 < (handlerStep job email r now).1.failed) ∧
    (handlerStep job email r now).1.completedAt = some now := by
  cases r with
  | success a s =>
    by_cases hge : job.sent + 1 + job.failed ≥ job.totalRecipients
    · simp only [handlerStep, hge, if_true, ge_iff_le] at h ⊢
      rcases Nat.eq_zero_or_pos job.failed with hf | hf
      · simp [hf, if_neg (by omega : ¬ job.failed > 0)]
      · simp [if_pos (by omega : job.failed > 0), hf]
        omega
    · simp only [handlerStep, hge, if_false, ge_iff_le] at h ⊢
      exact absurd h (by simp at hge ⊢; omega)
  | failure e a s =>
    by_cases hge : job.sent + (job.failed + 1) ≥ job.totalRecipients
    · simp only [handlerStep, hge, if_true, ge_iff_le] at h ⊢
      simp
    · simp only [handlerStep, hge, if_false, ge_iff_le] at h ⊢
      exact absurd h (by simp at hge ⊢; omega)

/-- Witness for C2: a one-recipient job whose single trigger succeeds is
finalized as `completed` with `completedAt` set. -/
theorem c2_witness :
    ((handlerStep ⟨0, 0, 1, .pending, none, none, none⟩ "a@x.com" (.success 1 []) 42).1.status = .completed ↔
      (handlerStep ⟨0, 0, 1, .pending, none, none, none⟩ "a@x.com" (.success 1 []) 42).1.failed = 0) ∧
    ((handlerStep ⟨0, 0, 1, .pending, none, none, none⟩ "a@x.com" (.success 1 []) 42).1.status = .completedWithErrors ↔
      0 < (handlerStep ⟨0, 0, 1, .pending, none, none, none⟩ "a@x.com" (.success 1 []) 42).1.failed) ∧
    (handlerStep ⟨0, 0, 1, .pending, none, none, none⟩ "a@x.com" (.success 1 []) 42).1.completedAt = some 42 :=
  c2_finalize_on_exact_count ⟨0, 0, 1, .pending, none, none, none⟩ "a@x.com"
    (.success 1 []) 42 (by decide)

/-- C6: a non-retryable error on attempt 1 aborts the retry loop with no
further attempts, and the handler increments `failed` by exactly 1 and
records `lastError`/`lastErrorAt` for that recipient with the message
truncated to 500 characters, then re-throws. -/
theorem c6_nonretryable_single_attempt (outcomes : Nat → AttemptResult)
    (e : SendError) (job : Job) (email : String) (now : Nat)
    (h0 : outcomes 0 = .err e) (hr : isRetryableError e = false) :
    sendEmailWithRetry outcomes = .failure e 1 [] ∧
    (sendEmailWithRetry outcomes).attemptsMade = 1 ∧
    (handlerStep job email (sendEmailWithRetry outcomes) now).1.failed = job.failed + 1 ∧
    (handlerStep job email (sendEmailWithRetry outcomes) now).1.lastError =
      some ⟨email, recordedErrorName e.name, jsTruncate e.message 500⟩ ∧
    (handlerStep job email (sendEmailWithRetry outcomes) now).1.lastErrorAt = some now ∧
    (handlerStep job email (sendEmailWithRetry outcomes) now).2 = .rethrown e := by
  have hrun : sendEmailWithRetry outcomes = .failure e 1 [] := by
    simp [sendEmailWithRetry, MAX_RETRIES, retryFrom, h0, hr]
  rw [hrun]
  refine ⟨rfl, rfl, ?_, ?_, ?_, rfl⟩ <;>
    by_cases hge : job.sent + (job.failed + 1) ≥ job.totalRecipients <;>
      simp [handlerStep, hge]

/-- Witness for C6: a `MessageRejected` (HTTP 400) error on the first
attempt gives a single attempt and the failure bookkeeping. -/
theorem c6_witness :
    sendEmailWithRetry outcomesAllReject = .failure rejectedError 1 [] ∧
    (sendEmailWithRetry outcomesAllReject).attemptsMade = 1 ∧
    (handlerStep ⟨0, 0, 2, .pending, none, none, none⟩ "a@x.com"
      (sendEmailWithRetry outcomesAllReject) 42).1.failed = 0 + 1 ∧
    (handlerStep ⟨0, 0, 2, .pending, none, none, none⟩ "a@x.com"
      (sendEmailWithRetry outcomesAllReject) 42).1.lastError =
      some ⟨"a@x.com", recordedErrorName rejectedError.name,
        jsTruncate rejectedError.message 500⟩ ∧
    (handlerStep ⟨0, 0, 2, .pending, none, none, none⟩ "a@x.com"
      (sendEmailWithRetry outcomesAllReject) 42).1.lastErrorAt = some 42 ∧
    (handlerStep ⟨0, 0, 2, .pending, none, none, none⟩ "a@x.com"
      (sendEmailWithRetry outcomesAllReject) 42).2 = .rethrown rejectedError :=
  c6_nonretryable_single_attempt outcomesAllReject rejectedError
    ⟨0, 0, 2, .pending, none, none, none⟩ "a@x.com" 42 rfl (by decide)

/-- C3 (amended): every retry run makes at most 3 attempts; the backoff
sleeps performed are a prefix of the exponential schedule `[1000, 2000]`
(the 4-second backoff of the 1s/2s/4s schedule is unreachable, because the
loop throws on the third failed attempt before sleeping); a further attempt
happens only after a retryable error; and retryable errors on attempts 1
and 2 followed by success on attempt 3 leave the handler incrementing
`sent` by exactly 1 with `lastError` untouched. -/
theorem c3_retry_bounded_backoff (outcomes : Nat → AttemptResult) (job : Job)
    (email : String) (now : Nat) :
    (sendEmailWithRetry outcomes).attemptsMade ≤ 3 ∧
    ((sendEmailWithRetry outcomes).sleeps = [] ∨
      (sendEmailWithRetry outcomes).sleeps = [1000] ∨
      (sendEmailWithRetry outcomes).sleeps = [1000, 2000]) ∧
    (∀ k, k + 1 < (sendEmailWithRetry outcomes).attemptsMade →
      ∃ e, outcomes k = .err e ∧ isRetryableError e = true) ∧
    (∀ e0 e1, outcomes 0 = .err e0 → isRetryableError e0 = true →
      outcomes 1 = .err e1 → isRetryableError e1 = true → outcomes 2 = .ok →
      sendEmailWithRetry outcomes = .success 3 [1000, 2000] ∧
      (handlerStep job email (sendEmailWithRetry outcomes) now).1.sent = job.sent + 1 ∧
      (handlerStep job email (sendEmailWithRetry outcomes) now).1.failed = job.failed ∧
      (handlerStep job email (sendEmailWithRetry outcomes) now).1.lastError = job.lastError) := by
  cases h0 : outcomes 0 with
  | ok =>
    have hrun : sendEmailWithRetry outcomes = .success 1 [] := by
      simp [sendEmailWithRetry, MAX_RETRIES, retryFrom, h0]
    refine ⟨by rw [hrun]; norm_num [RetryResult.attemptsMade],
      Or.inl (by rw [hrun]; rfl), ?_, ?_⟩
    · intro k hk
      rw [hrun] at hk
      simp [RetryResult.attemptsMade] at hk
    · intro e0 e1 he0 _ _ _ _
      exact absurd he0 (by simp)
  | err e0 =>
    by_cases hr0 : isRetryableError e0
    · cases h1 : outcomes 1 with
      | ok =>
        have hrun : sendEmailWithRetry outcomes = .success 2 [1000] := by
          norm_num [sendEmailWithRetry, MAX_RETRIES, INITIAL_BACKOFF_MS,
            retryFrom, h0, hr0, h1]
        refine ⟨by rw [hrun]; norm_num [RetryResult.attemptsMade],
          Or.inr (Or.inl (by rw [hrun]; rfl)), ?_, ?_⟩
        · intro k hk
          rw [hrun] at hk
          simp [RetryResult.attemptsMade] at hk
          have hk0 : k = 0 := by omega
          exact hk0 ▸ ⟨e0, h0, hr0⟩
        · intro e0' e1 _ _ he1 _ _
          exact absurd he1 (by simp)
      | err e1 =>
        by_cases hr1 : isRetryableError e1
        · cases h2 : outcomes 2 with
          | ok =>
            have hrun : sendEmailWithRetry outcomes = .success 3 [1000, 2000] := by
              norm_num [sendEmailWithRetry, MAX_RETRIES, INITIAL_BACKOFF_MS,
                retryFrom, h0, hr0, h1, hr1, h2]
            refine ⟨by rw [hrun]; norm_num [RetryResult.attemptsMade],
              Or.inr (Or.inr (by rw [hrun]; rfl)), ?_, ?_⟩
            · intro k hk
              rw [hrun] at hk
              simp [RetryResult.attemptsMade] at hk
              match k, hk with
              | 0, _ => exact ⟨e0, h0, hr0⟩
              | 1, _ => exact ⟨e1, h1, hr1⟩
            · intro e0' e1' _ _ _ _ _
              rw [hrun]
              refine ⟨rfl, ?_, ?_, ?_⟩ <;>
                by_cases hge : job.sent + 1 + job.failed ≥ job.totalRecipients <;>
                  simp [handlerStep, hge]
          | err e2 =>
            have hrun : sendEmailWithRetry outcomes = .failure e2 3 [1000, 2000] := by
              by_cases hr2 : isRetryableError e2 <;>
                norm_num [sendEmailWithRetry, MAX_RETRIES, INITIAL_BACKOFF_MS,
                  retryFrom, h0, hr0, h1, hr1, h2, hr2]
            refine ⟨by rw [hrun]; norm_num [RetryResult.attemptsMade],
              Or.inr (Or.inr (by rw [hrun]; rfl)), ?_, ?_⟩
            · intro k hk
              rw [hrun] at hk
              simp [RetryResult.attemptsMade] at hk
              match k, hk with
              | 0, _ => exact ⟨e0, h0, hr0⟩
              | 1, _ => exact ⟨e1, h1, hr1⟩
            · intro e0' e1' _ _ _ _ he2
              exact absurd he2 (by simp)
        · have hrun : sendEmailWithRetry outcomes = .failure e1 2 [1000] := by
            norm_num [sendEmailWithRetry, MAX_RETRIES, INITIAL_BACKOFF_MS,
              retryFrom, h0, hr0, h1, hr1]
          refine ⟨by rw [hrun]; norm_num [RetryResult.attemptsMade],
            Or.inr (Or.inl (by rw [hrun]; rfl)), ?_, ?_⟩
          · intro k hk
            rw [hrun] at hk
            simp [RetryResult.attemptsMade] at hk
            have hk0 : k = 0 := by omega
            exact hk0 ▸ ⟨e0, h0, hr0⟩
          · intro e0' e1' _ _ he1 hre1 _
            injection he1 with he1x
            subst he1x
            exact absurd hre1 hr1
    · have hrun : sendEmailWithRetry outcomes = .failure e0 1 [] := by
        simp [sendEmailWithRetry, MAX_RETRIES, retryFrom, h0, hr0]
      refine ⟨by rw [hrun]; norm_num [RetryResult.attemptsMade],
        Or.inl (by rw [hrun]; rfl), ?_, ?_⟩
      · intro k hk
        rw [hrun] at hk
        simp [RetryResult.attemptsMade] at hk
      · intro e0' e1' he0 hre0 _ _ _
        injection he0 with he0x
        subst he0x
        exact absurd hre0 hr0

/-- Counterexample for C3 as stated: in the run with the maximal number of
attempts (a retryable error on every attempt), the backoffs performed
between attempts are exactly 1s and 2s — no 4s backoff ever occurs. -/
theorem c3_counterexample_no_4s_backoff :
    (sendEmailWithRetry outcomesAllRetry).attemptsMade = 3 ∧
    (sendEmailWithRetry outcomesAllRetry).sleeps = [1000, 2000] ∧
    4000 ∉ (sendEmailWithRetry outcomesAllRetry).sleeps := by
  decide

/-- Witness for C3: retryable throttling errors on attempts 1 and 2 and a
success on attempt 3 give three attempts, sleeps 1s and 2s, `sent`
incremented by exactly 1, and `lastError` untouched. -/
theorem c3_witness :
    sendEmailWithRetry outcomesRRS = .success 3 [1000, 2000] ∧
    (handlerStep ⟨0, 0, 2, .pending, none, none, none⟩ "a@x.com"
      (sendEmailWithRetry outcomesRRS) 42).1.sent = 0 + 1 ∧
    (handlerStep ⟨0, 0, 2, .pending, none, none, none⟩ "a@x.com"
      (sendEmailWithRetry outcomesRRS) 42).1.failed = 0 ∧
    (handlerStep ⟨0, 0, 2, .pending, none, none, none⟩ "a@x.com"
      (sendEmailWithRetry outcomesRRS) 42).1.lastError = none :=
  (c3_retry_bounded_backoff outcomesRRS ⟨0, 0, 2, .pending, none, none, none⟩
    "a@x.com" 42).2.2.2 throttlingError throttlingError
    rfl (by decide) rfl (by decide) rfl

/-- A scan finds nothing when the predicate is false on the whole window. -/
theorem firstIdx_eq_none (f : Nat → Bool) (k : Nat) : ∀ s : Nat,
    (∀ i, s ≤ i → i < s + k → f i = false) → firstIdx f s k = none := by
  induction k with
  | zero => intro s _; rfl
  | succ k ih =>
    intro s h
    have hs : f s = false := h s le_rfl (by omega)
    simp only [firstIdx, hs, Bool.false_eq_true, if_false]
    exact ih (s + 1) (fun i h1 h2 => h i (by omega) (by omega))

/-- A scan returns the first index where the predicate holds. -/
theorem firstIdx_eq_some (f : Nat → Bool) (k : Nat) : ∀ s j : Nat,
    s ≤ j → j < s + k → f j = true →
    (∀ i, s ≤ i → i < j → f i = false) → firstIdx f s k = some j := by
  induction k with
  | zero => intro s j h1 h2 _ _; omega
  | succ k ih =>
    intro s j h1 h2 hf hpre
    by_cases hsj : s = j
    · subst hsj
      simp [firstIdx, hf]
    · have hs : f s = false := hpre s le_rfl (by omega)
      simp only [firstIdx, hs, Bool.false_eq_true, if_false]
      exact ih (s + 1) j (by omega) (by omega) hf
        (fun i hi1 hi2 => hpre i (by omega) hi2)

/-- C4: whenever the fan-out fails after the Job record exists, the run
re-raises the error after attempting to delete every schedule and every
attachment created so far and attempting to mark the Job `failed`; when the
schedule-creation loop is the failing step, the schedules created are
exactly those before the failing index, cleanup removes them all when the
deletes succeed, and the Job ends in status `failed`. -/
theorem c4_rollback_cleans_up (o : FanoutOracle) (jobId : String)
    (files : List String) (n : Nat) :
    ((runFanout o jobId files n).ok = false →
      (runFanout o jobId files n).scheduleDeleteAttempts =
        (runFanout o jobId files n).createdSchedules ∧
      (runFanout o jobId files n).attachmentDeleteAttempts =
        (runFanout o jobId files n).attachmentKeys ∧
      (o.markFailedFails = false → (runFanout o jobId files n).jobStatus = .failed)) ∧
    (∀ j, (∀ i, i < files.length → o.uploadFails i = false) →
      o.updateAttachmentsFails = false →
      j < n → (∀ i, i < j → o.createScheduleFails i = false) →
      o.createScheduleFails j = true →
      (runFanout o jobId files n).ok = false ∧
      (runFanout o jobId files n).createdSchedules =
        (List.range j).map (scheduleName jobId) ∧
      ((∀ i, i < j → o.deleteScheduleFails i = false) →
        (runFanout o jobId files n).remainingSchedules = []) ∧
      ((∀ i, i < files.length → o.deleteAttachmentFails i = false) →
        (runFanout o jobId files n).remainingAttachments = []) ∧
      (o.markFailedFails = false → (runFanout o jobId files n).jobStatus = .failed)) := by
  constructor
  · intro hok
    simp only [runFanout] at hok ⊢
    split_ifs at hok ⊢ with h1 h2 h3 <;>
      exact ⟨rfl, rfl, fun hm => by simp [fanoutCleanup, hm]⟩
  · intro j hup hupd hj hpre hfail
    have hupnone : firstIdx o.uploadFails 0 files.length = none :=
      firstIdx_eq_none o.uploadFails files.length 0
        (fun i h1 h2 => hup i (by omega))
    have hschedsome : firstIdx o.createScheduleFails 0 n = some j :=
      firstIdx_eq_some o.createScheduleFails n 0 j (by omega) (by omega) hfail
        (fun i h1 h2 => hpre i h2)
    have hrun : runFanout o jobId files n =
        fanoutCleanup o (files.map (fun f => jobId ++ "/" ++ f))
          ((List.range j).map (scheduleName jobId)) := by
      simp [runFanout, hupnone, hschedsome, hupd]
    rw [hrun]
    refine ⟨rfl, rfl, fun hdel => ?_, fun hdelA => ?_, fun hm => by simp [fanoutCleanup, hm]⟩
    · simp only [fanoutCleanup]
      have hfil : (List.range ((List.range j).map (scheduleName jobId)).length).filter
          o.deleteScheduleFails = [] := by
        rw [List.filter_eq_nil_iff]
        intro a ha
        rw [List.mem_range, List.length_map, List.length_range] at ha
        simp [hdel a ha]
      rw [hfil]
      rfl
    · simp only [fanoutCleanup]
      have hfil : (List.range (files.map (fun f => jobId ++ "/" ++ f)).length).filter
          o.deleteAttachmentFails = [] := by
        rw [List.filter_eq_nil_iff]
        intro a ha
        rw [List.mem_range, List.length_map] at ha
        simp [hdelA a ha]
      rw [hfil]
      rfl

/-- Witness for C4, the spec's rollback scenario: 10 recipients, schedule
creation fails on the 4th — the 3 created schedules are all deleted and the
Job ends `failed` with the error re-raised. -/
theorem c4_witness :
    (runFanout failOn4thSchedule "J" [] 10).ok = false ∧
    (runFanout failOn4thSchedule "J" [] 10).createdSchedules =
      (List.range 3).map (scheduleName "J") ∧
    (runFanout failOn4thSchedule "J" [] 10).remainingSchedules = [] ∧
    (runFanout failOn4thSchedule "J" [] 10).jobStatus = .failed := by
  have h := (c4_rollback_cleans_up failOn4thSchedule "J" [] 10).2 3
    (fun i hi => absurd hi (by simp))
    rfl (by norm_num)
    (fun i hi => by
      have : i ≠ 3 := by omega
      simp [failOn4thSchedule, this])
    (by decide)
  exact ⟨h.1, h.2.1, h.2.2.1 (fun i hi => rfl), h.2.2.2.2 rfl⟩

/-- One worker step adds exactly 1 to `sent + failed`, keeps
`totalRecipients`, leaves the status alone below the total, and lands on a
terminal status at or above it. -/
theorem handlerStep_counters (job : Job) (email : String) (r : RetryResult)
    (now : Nat) :
    (handlerStep job email r now).1.sent + (handlerStep job email r now).1.failed =
      job.sent + job.failed + 1 ∧
    (handlerStep job email r now).1.totalRecipients = job.totalRecipients ∧
    (job.sent + job.failed + 1 < job.totalRecipients →
      (handlerStep job email r now).1.status = job.status) ∧
    (job.sent + job.failed + 1 ≥ job.totalRecipients →
      isTerminal (handlerStep job email r now).1.status = true) := by
  cases r with
  | success a s =>
    by_cases hge : job.sent + 1 + job.failed ≥ job.totalRecipients
    · refine ⟨?_, ?_, fun h => absurd hge (by omega), fun _ => ?_⟩ <;>
        simp [handlerStep, hge]
      · omega
      · by_cases hf : job.failed > 0 <;> simp [hf, isTerminal]
    · refine ⟨?_, ?_, fun _ => ?_, fun h => absurd h (by omega)⟩ <;>
        simp [handlerStep, hge]
      omega
  | failure e a s =>
    by_cases hge : job.sent + (job.failed + 1) ≥ job.totalRecipients
    · refine ⟨?_, ?_, fun h => absurd hge (by omega), fun _ => ?_⟩ <;>
        simp [handlerStep, hge, isTerminal]
      omega
    · refine ⟨?_, ?_, fun _ => ?_, fun h => absurd h (by omega)⟩ <;>
        simp [handlerStep, hge]
      omega

/-- Invariant along a pure-trigger suffix of a job's lifecycle: starting
from a pending job whose remaining triggers exactly cover the recipient
count, after any `k` of them the counters sum to the starting sum plus `k`,
the total is unchanged, and the status is terminal exactly when the sum has
reached the total. -/
theorem runTriggers_inv (ts : List JobEvent) : ∀ job : Job,
    (∀ e ∈ ts, e.isTrigger = true) →
    job.status = .pending →
    job.sent + job.failed + ts.length = job.totalRecipients →
    job.sent + job.failed < job.totalRecipients →
    ∀ k, k ≤ ts.length →
      (runJob job (ts.take k)).sent + (runJob job (ts.take k)).failed =
        job.sent + job.failed + k ∧
      (runJob job (ts.take k)).totalRecipients = job.totalRecipients ∧
      (isTerminal (runJob job (ts.take k)).status = true ↔
        job.sent + job.failed + k = job.totalRecipients) := by
  induction ts with
  | nil =>
    intro job _ _ hsum hlt k _
    exact absurd hsum (by simp; omega)
  | cons e rest ih =>
    intro job htrig hp hsum hlt k hk
    match k with
    | 0 =>
      refine ⟨by simp [runJob], by simp [runJob], ?_⟩
      simp only [List.take_zero, runJob, List.foldl_nil]
      rw [hp]
      simp [isTerminal]
      omega
    | k + 1 =>
      cases e with
      | fanoutFailed =>
        have hbad : JobEvent.fanoutFailed.isTrigger = true :=
          htrig _ (List.mem_cons_self _ _)
        simp [JobEvent.isTrigger] at hbad
      | trigger email r now =>
        have hs := handlerStep_counters job email r now
        simp only [List.take_succ_cons, runJob, List.foldl_cons] at hk ⊢
        simp only [List.length_cons] at hsum hk
        by_cases hfin : job.sent + job.failed + 1 ≥ job.totalRecipients
        · have hsum1 : job.sent + job.failed + 1 = job.totalRecipients := by omega
          have hrest : rest = [] := List.eq_nil_of_length_eq_zero (by omega)
          subst hrest
          have hk0 : k = 0 := by omega
          subst hk0
          simp only [List.take_zero, List.foldl_nil]
          refine ⟨?_, ?_, ?_⟩
          · rw [jobStep]
            omega
          · rw [jobStep]
            exact hs.2.1
          · rw [jobStep]
            constructor
            · intro _
              omega
            · intro _
              exact hs.2.2.2 hfin
        · have hstat : (jobStep job (.trigger email r now)).status = .pending := by
            rw [jobStep]
            rw [hs.2.2.1 (by omega)]
            exact hp
          have hinv := ih (jobStep job (.trigger email r now))
            (fun x hx => htrig x (List.mem_cons_of_mem _ hx)) hstat
            (by rw [jobStep]; rw [jobStep] at hstat;
                have h1 := hs.1
                have h2 := hs.2.1
                omega)
            (by rw [jobStep]
                have h1 := hs.1
                have h2 := hs.2.1
                omega)
            k (by omega)
          obtain ⟨ha, hb, hc⟩ := hinv
          simp only [runJob] at ha hb hc
          simp only [jobStep] at ha hb hc ⊢
          have h1 := hs.1
          have h2 := hs.2.1
          refine ⟨?_, ?_, ?_⟩
          · rw [ha]
            omega
          · rw [hb]
            omega
          · rw [hc]
            omega

/-- C1 (amended): along every valid lifecycle of a job with `n ≥ 1`
recipients, `sent + failed` never exceeds `totalRecipients` and the job
transitions to a terminal status exactly once; on trigger-only traces (the
fan-out succeeded) the status is terminal exactly when
`sent + failed = totalRecipients`, while a fan-out rollback reaches the
terminal status `failed` with `sent + failed` still below the total. -/
theorem c1_job_invariant_amended (n : Nat) (evs : List JobEvent)
    (hn : 1 ≤ n) (hv : ValidTrace n evs) :
    (∀ k, k ≤ evs.length →
      (runJob (mkJob n) (evs.take k)).sent + (runJob (mkJob n) (evs.take k)).failed ≤ n ∧
      (runJob (mkJob n) (evs.take k)).totalRecipients = n) ∧
    ((∀ e ∈ evs, e.isTrigger = true) →
      ∀ k, k ≤ evs.length →
        (isTerminal (runJob (mkJob n) (evs.take k)).status = true ↔
          (runJob (mkJob n) (evs.take k)).sent + (runJob (mkJob n) (evs.take k)).failed = n)) ∧
    (∃! k, k < evs.length ∧
      isTerminal (runJob (mkJob n) (evs.take k)).status = false ∧
      isTerminal (runJob (mkJob n) (evs.take (k + 1))).status = true) := by
  rcases hv with hfo | ⟨hlen, htr⟩
  · subst hfo
    refine ⟨?_, ?_, ?_⟩
    · intro k hk
      match k with
      | 0 => exact ⟨by simp [runJob, mkJob], rfl⟩
      | 1 => exact ⟨by simp [runJob, jobStep, mkJob], rfl⟩
    · intro htrig
      have hbad : JobEvent.fanoutFailed.isTrigger = true :=
        htrig _ (List.mem_cons_self _ _)
      simp [JobEvent.isTrigger] at hbad
    · refine ⟨0, ⟨by norm_num, rfl, rfl⟩, ?_⟩
      intro k' ⟨hk', _, _⟩
      simp at hk'
      exact hk'
  · have hinv := runTriggers_inv evs (mkJob n) htr rfl
      (by simp [mkJob]; omega) (by simp [mkJob]; omega)
    have hms : (mkJob n).sent = 0 := rfl
    have hmf : (mkJob n).failed = 0 := rfl
    have hmt : (mkJob n).totalRecipients = n := rfl
    refine ⟨?_, ?_, ?_⟩
    · intro k hk
      obtain ⟨ha, hb, _⟩ := hinv k hk
      rw [hms, hmf] at ha
      rw [hmt] at hb
      exact ⟨by omega, hb⟩
    · intro _ k hk
      obtain ⟨ha, _, hc⟩ := hinv k hk
      rw [hms, hmf] at ha hc
      rw [hmt] at hc
      rw [ha, hc]
    · obtain ⟨_, _, hc1⟩ := hinv (n - 1) (by omega)
      obtain ⟨_, _, hcn⟩ := hinv n (by omega)
      rw [hms, hmf, hmt] at hc1 hcn
      have hterm1 : isTerminal (runJob (mkJob n) (evs.take (n - 1))).status = false := by
        rw [Bool.eq_false_iff]
        intro ht
        have := hc1.mp ht
        omega
      have htermn : isTerminal (runJob (mkJob n) (evs.take n)).status = true :=
        hcn.mpr (by omega)
      have heq : n - 1 + 1 = n := by omega
      refine ⟨n - 1, ⟨by omega, hterm1, by rw [heq]; exact htermn⟩, ?_⟩
      intro k' ⟨hk', hnt, ht⟩
      obtain ⟨_, _, hck⟩ := hinv k' (by omega)
      obtain ⟨_, _, hck1⟩ := hinv (k' + 1) (by omega)
      rw [hms, hmf, hmt] at hck hck1
      have h1 : ¬ (0 + 0 + k' = n) := fun hkn => by
        rw [Bool.eq_false_iff] at hnt
        exact hnt (hck.mpr hkn)
      have h2 : 0 + 0 + (k' + 1) = n := hck1.mp ht
      omega

/-- Counterexample for C1 as stated: the fan-out-rollback trace of a
one-recipient job is valid, ends in a terminal status (`failed`), and yet
has `sent + failed = 0 ≠ 1 = totalRecipients` — refuting "status is
terminal iff `sent + failed == totalRecipients`". -/
theorem c1_counterexample_fanout_rollback :
    ValidTrace 1 [JobEvent.fanoutFailed] ∧
    isTerminal (runJob (mkJob 1) [JobEvent.fanoutFailed]).status = true ∧
    (runJob (mkJob 1) [JobEvent.fanoutFailed]).sent +
      (runJob (mkJob 1) [JobEvent.fanoutFailed]).failed ≠
      (runJob (mkJob 1) [JobEvent.fanoutFailed]).totalRecipients :=
  ⟨Or.inl rfl, rfl, by decide⟩

/-- Witness for C1 at a one-recipient job whose single trigger succeeds:
the counters stay bounded and the job transitions to terminal exactly
once. -/
theorem c1_witness :
    (runJob (mkJob 1) ([JobEvent.trigger "a@x.com" (.success 1 []) 7].take 1)).sent +
      (runJob (mkJob 1) ([JobEvent.trigger "a@x.com" (.success 1 []) 7].take 1)).failed ≤ 1 ∧
    (∃! k, k < ([JobEvent.trigger "a@x.com" (.success 1 []) 7] : List JobEvent).length ∧
      isTerminal (runJob (mkJob 1)
        ([JobEvent.trigger "a@x.com" (.success 1 []) 7].take k)).status = false ∧
      isTerminal (runJob (mkJob 1)
        ([JobEvent.trigger "a@x.com" (.success 1 []) 7].take (k + 1))).status = true) := by
  have h := c1_job_invariant_amended 1 [JobEvent.trigger "a@x.com" (.success 1 []) 7]
    (le_refl 1)
    (Or.inr ⟨rfl, by
      intro e he
      simp at he
      subst he
      rfl⟩)
  exact ⟨(h.1 1 (by norm_num)).1, h.2.2⟩

end Trickle
